import Mathlib

/-!
Shallow embedding of the Child Immunization Registry backend
(`src/schemas.py` and `src/main.py`).

The five pydantic models of `schemas.py` become Lean structures.  A raw
create payload is embedded field by field with `RawField`, which keeps
the JSON-level distinction between an omitted key, an explicit `null`,
and a given value; validation follows the pydantic `Field` declarations
(required `...` fields, `ge=1` bounds, defaults).  The document store
(`database.py` is not part of the sources; only its callers in
`src/main.py` are) is modelled from the spec as an in-memory state with
insert-one and find-many-with-optional-filter.  The endpoint handlers of
`src/main.py` are embedded as explicit state-passing functions on an
optional store handle (`db` may be unconfigured).
-/

/-- Calendar date as carried by pydantic `date` fields. -/
structure CalDate where
  year : Nat
  month : Nat
  day : Nat
deriving DecidableEq, Repr

/-- JSON-level state of one field of a create payload: the key can be
absent, explicitly `null`, or carry a value. -/
inductive RawField (α : Type) where
  | missing : RawField α
  | null : RawField α
  | given : α → RawField α
deriving DecidableEq, Repr

/-- Guardian record (`schemas.py`, class `Guardian`): `name` required,
the four other text fields optional with default `None`. -/
structure Guardian where
  name : String
  phone : Option String
  email : Option String
  relationship : Option String
  address : Option String
deriving DecidableEq, Repr

/-- Child record (`schemas.py`, class `Child`). -/
structure Child where
  first_name : String
  last_name : String
  gender : Option String
  date_of_birth : CalDate
  birth_certificate_number : Option String
  national_id : Option String
  guardian_id : Option String
deriving DecidableEq, Repr

/-- Vaccine record (`schemas.py`, class `Vaccine`): `doses_required` is
`Optional[int] = Field(1, ge=1)`. -/
structure Vaccine where
  name : String
  code : Option String
  manufacturer : Option String
  doses_required : Option Int
  recommended_ages_weeks : Option (List Int)
deriving DecidableEq, Repr

/-- Immunization record (`schemas.py`, class `Immunization`). -/
structure Immunization where
  child_id : String
  vaccine_id : String
  dose_number : Int
  date_administered : CalDate
  administered_by : Option String
  location : Option String
  lot_number : Option String
  adverse_events : Option String
deriving DecidableEq, Repr

/-- Appointment record (`schemas.py`, class `Appointment`). -/
structure Appointment where
  child_id : String
  vaccine_id : String
  dose_number : Int
  scheduled_date : CalDate
  notes : Option String
deriving DecidableEq, Repr

/-- Raw create payload for a Guardian (`CreateGuardianRequest`). -/
structure RawGuardian where
  name : RawField String
  phone : RawField String
  email : RawField String
  relationship : RawField String
  address : RawField String
deriving DecidableEq, Repr

/-- Raw create payload for a Child (`CreateChildRequest`). -/
structure RawChild where
  first_name : RawField String
  last_name : RawField String
  gender : RawField String
  date_of_birth : RawField CalDate
  birth_certificate_number : RawField String
  national_id : RawField String
  guardian_id : RawField String
deriving DecidableEq, Repr

/-- Raw create payload for a Vaccine (`CreateVaccineRequest`). -/
structure RawVaccine where
  name : RawField String
  code : RawField String
  manufacturer : RawField String
  doses_required : RawField Int
  recommended_ages_weeks : RawField (List Int)
deriving DecidableEq, Repr

/-- Raw create payload for an Immunization (`CreateImmunizationRequest`). -/
structure RawImmunization where
  child_id : RawField String
  vaccine_id : RawField String
  dose_number : RawField Int
  date_administered : RawField CalDate
  administered_by : RawField String
  location : RawField String
  lot_number : RawField String
  adverse_events : RawField String
deriving DecidableEq, Repr

/-- Raw create payload for an Appointment (`CreateAppointmentRequest`). -/
structure RawAppointment where
  child_id : RawField String
  vaccine_id : RawField String
  dose_number : RawField Int
  scheduled_date : RawField CalDate
  notes : RawField String
deriving DecidableEq, Repr

/-- Pydantic semantics of a required field `f : T = Field(...)`: a value
must be present (neither omitted nor `null`); the error carries the
offending field's name. -/
def reqField {α : Type} (f : String) : RawField α → Except String α
  | .given a => .ok a
  | .missing => .error f
  | .null => .error f

/-- Pydantic semantics of an optional field
`f : Optional[T] = Field(None)`: an omitted or `null` key becomes the
explicit absent value `None`. -/
def optField {α : Type} : RawField α → Option α
  | .given a => some a
  | .missing => none
  | .null => none

/-- Pydantic semantics of `dose_number : int = Field(..., ge=1)`: the
value is required and must satisfy `1 ≤ v`. -/
def reqIntGe1 (f : String) : RawField Int → Except String Int
  | .given v => if 1 ≤ v then .ok v else .error f
  | .missing => .error f
  | .null => .error f

/-- Pydantic semantics of `doses_required : Optional[int] = Field(1, ge=1)`:
an omitted key takes the default `1`; an explicit `null` is a legal value
of `Optional[int]` and is kept as absent (the `ge` bound constrains only
integer values); a given integer must satisfy `1 ≤ v`. -/
def dosesRequiredField : RawField Int → Except String (Option Int)
  | .missing => .ok (some 1)
  | .null => .ok none
  | .given v => if 1 ≤ v then .ok (some v) else .error "doses_required"

/-- Validation of a Guardian create payload per `schemas.py`. -/
def validateGuardian (r : RawGuardian) : Except String Guardian :=
  match reqField "name" r.name with
  | .error e => .error e
  | .ok n =>
      .ok { name := n, phone := optField r.phone, email := optField r.email,
            relationship := optField r.relationship, address := optField r.address }

/-- Validation of a Child create payload per `schemas.py`. -/
def validateChild (r : RawChild) : Except String Child :=
  match reqField "first_name" r.first_name with
  | .error e => .error e
  | .ok fn =>
    match reqField "last_name" r.last_name with
    | .error e => .error e
    | .ok ln =>
      match reqField "date_of_birth" r.date_of_birth with
      | .error e => .error e
      | .ok dob =>
          .ok { first_name := fn, last_name := ln, gender := optField r.gender,
                date_of_birth := dob,
                birth_certificate_number := optField r.birth_certificate_number,
                national_id := optField r.national_id,
                guardian_id := optField r.guardian_id }

/-- Validation of a Vaccine create payload per `schemas.py`. -/
def validateVaccine (r : RawVaccine) : Except String Vaccine :=
  match reqField "name" r.name with
  | .error e => .error e
  | .ok n =>
    match dosesRequiredField r.doses_required with
    | .error e => .error e
    | .ok dr =>
        .ok { name := n, code := optField r.code,
              manufacturer := optField r.manufacturer, doses_required := dr,
              recommended_ages_weeks := optField r.recommended_ages_weeks }

/-- Validation of an Immunization create payload per `schemas.py`. -/
def validateImmunization (r : RawImmunization) : Except String Immunization :=
  match reqField "child_id" r.child_id with
  | .error e => .error e
  | .ok cid =>
    match reqField "vaccine_id" r.vaccine_id with
    | .error e => .error e
    | .ok vid =>
      match reqIntGe1 "dose_number" r.dose_number with
      | .error e => .error e
      | .ok dn =>
        match reqField "date_administered" r.date_administered with
        | .error e => .error e
        | .ok da =>
            .ok { child_id := cid, vaccine_id := vid, dose_number := dn,
                  date_administered := da,
                  administered_by := optField r.administered_by,
                  location := optField r.location,
                  lot_number := optField r.lot_number,
                  adverse_events := optField r.adverse_events }

/-- Validation of an Appointment create payload per `schemas.py`. -/
def validateAppointment (r : RawAppointment) : Except String Appointment :=
  match reqField "child_id" r.child_id with
  | .error e => .error e
  | .ok cid =>
    match reqField "vaccine_id" r.vaccine_id with
    | .error e => .error e
    | .ok vid =>
      match reqIntGe1 "dose_number" r.dose_number with
      | .error e => .error e
      | .ok dn =>
        match reqField "scheduled_date" r.scheduled_date with
        | .error e => .error e
        | .ok sd =>
            .ok { child_id := cid, vaccine_id := vid, dose_number := dn,
                  scheduled_date := sd, notes := optField r.notes }

/-- Stored document: a record together with its system-assigned
identifier. -/
structure Doc (α : Type) where
  oid : Nat
  data : α
deriving DecidableEq, Repr

/-- Externally visible document: the identifier in its text form, as the
list endpoints return it after `d["_id"] = str(d.get("_id"))`. -/
structure StrDoc (α : Type) where
  oid : String
  data : α
deriving DecidableEq, Repr

/-- Identifier stringification applied by every list endpoint of
`src/main.py`. -/
def stringifyDoc {α : Type} (d : Doc α) : StrDoc α :=
  { oid := toString d.oid, data := d.data }

/-- Modelled from the spec: the document store behind `database.py`
(absent from the sources; `src/main.py` imports `create_document`,
`get_documents` and `db` from it).  One collection per entity type,
plus a counter from which fresh identifiers are drawn. -/
structure Store where
  nextId : Nat
  guardian : List (Doc Guardian)
  child : List (Doc Child)
  vaccine : List (Doc Vaccine)
  immunization : List (Doc Immunization)
  appointment : List (Doc Appointment)
deriving DecidableEq, Repr

/-- Identifiers already assigned anywhere in the store. -/
def Store.natIds (s : Store) : List Nat :=
  s.guardian.map Doc.oid ++ s.child.map Doc.oid ++ s.vaccine.map Doc.oid ++
    s.immunization.map Doc.oid ++ s.appointment.map Doc.oid

/-- Store invariant: every assigned identifier is below the counter, so
the next insert draws a fresh one. -/
def Store.WF (s : Store) : Prop :=
  ∀ i ∈ s.natIds, i < s.nextId

instance (s : Store) : Decidable s.WF := by
  unfold Store.WF
  infer_instance

/-- Modelled from the spec: `create_document("guardian", payload)` of the
absent `database.py` — insert-one returning a new unique identifier. -/
def insertGuardian (s : Store) (p : Guardian) : Nat × Store :=
  (s.nextId, { s with nextId := s.nextId + 1, guardian := s.guardian ++ [⟨s.nextId, p⟩] })

/-- Modelled from the spec: `create_document("child", payload)`. -/
def insertChild (s : Store) (p : Child) : Nat × Store :=
  (s.nextId, { s with nextId := s.nextId + 1, child := s.child ++ [⟨s.nextId, p⟩] })

/-- Modelled from the spec: `create_document("vaccine", payload)`. -/
def insertVaccine (s : Store) (p : Vaccine) : Nat × Store :=
  (s.nextId, { s with nextId := s.nextId + 1, vaccine := s.vaccine ++ [⟨s.nextId, p⟩] })

/-- Modelled from the spec: `create_document("immunization", payload)`. -/
def insertImmunization (s : Store) (p : Immunization) : Nat × Store :=
  (s.nextId,
    { s with nextId := s.nextId + 1, immunization := s.immunization ++ [⟨s.nextId, p⟩] })

/-- Modelled from the spec: `create_document("appointment", payload)`. -/
def insertAppointment (s : Store) (p : Appointment) : Nat × Store :=
  (s.nextId,
    { s with nextId := s.nextId + 1, appointment := s.appointment ++ [⟨s.nextId, p⟩] })

/-- Modelled from the spec: `get_documents("immunization", filter_q)` —
find-many with an optional equality filter on `child_id`. -/
def findImmunizations (s : Store) : Option String → List (Doc Immunization)
  | none => s.immunization
  | some c => s.immunization.filter (fun d => d.data.child_id == c)

/-- Modelled from the spec: `get_documents("appointment", filter_q)`. -/
def findAppointments (s : Store) : Option String → List (Doc Appointment)
  | none => s.appointment
  | some c => s.appointment.filter (fun d => d.data.child_id == c)

/-- Errors surfaced by the access layer: a pydantic validation failure
naming the offending field (FastAPI rejects the request before the
handler body runs), or the `HTTPException` raised by `ensure_db` when
the global `db` handle is `None`. -/
inductive ApiError where
  | validation : String → ApiError
  | serviceUnavailable : ApiError
deriving DecidableEq, Repr

/-- Endpoint `POST /api/guardians` (`create_guardian` in `src/main.py`):
FastAPI validates the payload, then the handler runs `ensure_db` and
`create_document`, returning the new identifier.  The second component
is the store handle after the call. -/
def create_guardian (db : Option Store) (raw : RawGuardian) :
    Except ApiError String × Option Store :=
  match validateGuardian raw with
  | .error f => (.error (.validation f), db)
  | .ok p =>
    match db with
    | none => (.error .serviceUnavailable, none)
    | some s =>
        let r := insertGuardian s p
        (.ok (toString r.1), some r.2)

/-- Endpoint `GET /api/guardians` (`list_guardians` in `src/main.py`). -/
def list_guardians (db : Option Store) :
    Except ApiError (List (StrDoc Guardian)) × Option Store :=
  match db with
  | none => (.error .serviceUnavailable, none)
  | some s => (.ok (s.guardian.map stringifyDoc), some s)

/-- Endpoint `POST /api/children` (`create_child` in `src/main.py`). -/
def create_child (db : Option Store) (raw : RawChild) :
    Except ApiError String × Option Store :=
  match validateChild raw with
  | .error f => (.error (.validation f), db)
  | .ok p =>
    match db with
    | none => (.error .serviceUnavailable, none)
    | some s =>
        let r := insertChild s p
        (.ok (toString r.1), some r.2)

/-- Endpoint `GET /api/children` (`list_children` in `src/main.py`). -/
def list_children (db : Option Store) :
    Except ApiError (List (StrDoc Child)) × Option Store :=
  match db with
  | none => (.error .serviceUnavailable, none)
  | some s => (.ok (s.child.map stringifyDoc), some s)

/-- Endpoint `POST /api/vaccines` (`create_vaccine` in `src/main.py`). -/
def create_vaccine (db : Option Store) (raw : RawVaccine) :
    Except ApiError String × Option Store :=
  match validateVaccine raw with
  | .error f => (.error (.validation f), db)
  | .ok p =>
    match db with
    | none => (.error .serviceUnavailable, none)
    | some s =>
        let r := insertVaccine s p
        (.ok (toString r.1), some r.2)

/-- Endpoint `GET /api/vaccines` (`list_vaccines` in `src/main.py`). -/
def list_vaccines (db : Option Store) :
    Except ApiError (List (StrDoc Vaccine)) × Option Store :=
  match db with
  | none => (.error .serviceUnavailable, none)
  | some s => (.ok (s.vaccine.map stringifyDoc), some s)

/-- Endpoint `POST /api/immunizations` (`create_immunization` in
`src/main.py`). -/
def create_immunization (db : Option Store) (raw : RawImmunization) :
    Except ApiError String × Option Store :=
  match validateImmunization raw with
  | .error f => (.error (.validation f), db)
  | .ok p =>
    match db with
    | none => (.error .serviceUnavailable, none)
    | some s =>
        let r := insertImmunization s p
        (.ok (toString r.1), some r.2)

/-- The query filter built by `list_immunizations`/`list_appointments`:
`filter_q = \x7b"child_id": child_id\x7d if child_id else None`.  A `None`
query parameter and the falsy empty string both yield no filter. -/
def truthyFilter : Option String → Option String
  | none => none
  | some c => if c = "" then none else some c

/-- Endpoint `GET /api/immunizations?child_id=` (`list_immunizations` in
`src/main.py`). -/
def list_immunizations (db : Option Store) (child_id : Option String) :
    Except ApiError (List (StrDoc Immunization)) × Option Store :=
  match db with
  | none => (.error .serviceUnavailable, none)
  | some s =>
      (.ok ((findImmunizations s (truthyFilter child_id)).map stringifyDoc), some s)

/-- Endpoint `POST /api/appointments` (`create_appointment` in
`src/main.py`). -/
def create_appointment (db : Option Store) (raw : RawAppointment) :
    Except ApiError String × Option Store :=
  match validateAppointment raw with
  | .error f => (.error (.validation f), db)
  | .ok p =>
    match db with
    | none => (.error .serviceUnavailable, none)
    | some s =>
        let r := insertAppointment s p
        (.ok (toString r.1), some r.2)

/-- Endpoint `GET /api/appointments?child_id=` (`list_appointments` in
`src/main.py`). -/
def list_appointments (db : Option Store) (child_id : Option String) :
    Except ApiError (List (StrDoc Appointment)) × Option Store :=
  match db with
  | none => (.error .serviceUnavailable, none)
  | some s =>
      (.ok ((findAppointments s (truthyFilter child_id)).map stringifyDoc), some s)

/-- A well-formed store never reuses an identifier: the counter is above
every assigned identifier. -/
theorem Store.nextId_fresh {s : Store} (h : s.WF) : s.nextId ∉ s.natIds :=
  fun hm => absurd (h s.nextId hm) (lt_irrefl s.nextId)

/-- Characterization of a successful `reqIntGe1` check. -/
theorem reqIntGe1_ok {f : String} {x : RawField Int} {n : Int}
    (h : reqIntGe1 f x = .ok n) : x = .given n ∧ 1 ≤ n := by
  cases x with
  | missing => simp [reqIntGe1] at h
  | null => simp [reqIntGe1] at h
  | given v =>
    by_cases hv : 1 ≤ v <;> simp [reqIntGe1, hv] at h
    exact ⟨by rw [h], h ▸ hv⟩

/-- Characterization of a successful `dosesRequiredField` check. -/
theorem dosesRequiredField_ok {x : RawField Int} {d : Option Int}
    (h : dosesRequiredField x = .ok d) :
    (x = .missing ∧ d = some 1) ∨ (x = .null ∧ d = none) ∨
      ∃ v, x = .given v ∧ 1 ≤ v ∧ d = some v := by
  cases x with
  | missing => simp [dosesRequiredField] at h; exact Or.inl ⟨rfl, h.symm⟩
  | null => simp [dosesRequiredField] at h; exact Or.inr (Or.inl ⟨rfl, h.symm⟩)
  | given v =>
    by_cases hv : 1 ≤ v <;> simp [dosesRequiredField, hv] at h
    exact Or.inr (Or.inr ⟨v, rfl, hv, h.symm⟩)

/-- A Guardian payload validates successfully exactly when `name` is
given; optional fields pass through `optField`. -/
theorem validateGuardian_ok {r : RawGuardian} {p : Guardian}
    (h : validateGuardian r = .ok p) :
    r.name = .given p.name ∧ p.phone = optField r.phone ∧
      p.email = optField r.email ∧ p.relationship = optField r.relationship ∧
      p.address = optField r.address := by
  cases hn : r.name <;> simp [validateGuardian, reqField, hn] at h
  subst h
  exact ⟨rfl, rfl, rfl, rfl, rfl⟩

/-- Field-level characterization of a successful Child validation. -/
theorem validateChild_ok {r : RawChild} {p : Child}
    (h : validateChild r = .ok p) :
    r.first_name = .given p.first_name ∧ r.last_name = .given p.last_name ∧
      p.gender = optField r.gender ∧ r.date_of_birth = .given p.date_of_birth ∧
      p.birth_certificate_number = optField r.birth_certificate_number ∧
      p.national_id = optField r.national_id ∧
      p.guardian_id = optField r.guardian_id := by
  cases hfn : r.first_name <;> cases hln : r.last_name <;>
    cases hdob : r.date_of_birth <;>
    simp [validateChild, reqField, hfn, hln, hdob] at h
  subst h
  exact ⟨rfl, rfl, rfl, rfl, rfl, rfl, rfl⟩

/-- Field-level characterization of a successful Vaccine validation. -/
theorem validateVaccine_ok {r : RawVaccine} {p : Vaccine}
    (h : validateVaccine r = .ok p) :
    r.name = .given p.name ∧ p.code = optField r.code ∧
      p.manufacturer = optField r.manufacturer ∧
      dosesRequiredField r.doses_required = .ok p.doses_required ∧
      p.recommended_ages_weeks = optField r.recommended_ages_weeks := by
  cases hn : r.name <;> cases hd : dosesRequiredField r.doses_required <;>
    simp [validateVaccine, reqField, hn, hd] at h
  subst h
  exact ⟨rfl, rfl, rfl, rfl, rfl⟩

/-- Field-level characterization of a successful Immunization validation. -/
theorem validateImmunization_ok {r : RawImmunization} {p : Immunization}
    (h : validateImmunization r = .ok p) :
    r.child_id = .given p.child_id ∧ r.vaccine_id = .given p.vaccine_id ∧
      reqIntGe1 "dose_number" r.dose_number = .ok p.dose_number ∧
      r.date_administered = .given p.date_administered ∧
      p.administered_by = optField r.administered_by ∧
      p.location = optField r.location ∧ p.lot_number = optField r.lot_number ∧
      p.adverse_events = optField r.adverse_events := by
  cases hc : r.child_id <;> cases hv : r.vaccine_id <;>
    cases hdn : reqIntGe1 "dose_number" r.dose_number <;>
    cases hda : r.date_administered <;>
    simp [validateImmunization, reqField, hc, hv, hdn, hda] at h
  subst h
  exact ⟨rfl, rfl, rfl, rfl, rfl, rfl, rfl, rfl⟩

/-- Field-level characterization of a successful Appointment validation. -/
theorem validateAppointment_ok {r : RawAppointment} {p : Appointment}
    (h : validateAppointment r = .ok p) :
    r.child_id = .given p.child_id ∧ r.vaccine_id = .given p.vaccine_id ∧
      reqIntGe1 "dose_number" r.dose_number = .ok p.dose_number ∧
      r.scheduled_date = .given p.scheduled_date ∧
      p.notes = optField r.notes := by
  cases hc : r.child_id <;> cases hv : r.vaccine_id <;>
    cases hdn : reqIntGe1 "dose_number" r.dose_number <;>
    cases hsd : r.scheduled_date <;>
    simp [validateAppointment, reqField, hc, hv, hdn, hsd] at h
  subst h
  exact ⟨rfl, rfl, rfl, rfl, rfl⟩

/-- Empty store with counter 0, used as a concrete test state. -/
def st0 : Store := ⟨0, [], [], [], [], []⟩

/-- Concrete Guardian create payload (only the required `name`). -/
def rawG0 : RawGuardian := ⟨.given "Jane Doe", .missing, .missing, .missing, .missing⟩

/-- Validated form of `rawG0`. -/
def g0 : Guardian := ⟨"Jane Doe", none, none, none, none⟩

/-- C1: for every valid payload of each of the five entity types, the
create endpoint on a well-formed store returns the freshly drawn
identifier — one not assigned to any existing record — and the
subsequent list endpoint returns a sequence containing a record whose
fields equal the validated input payload and whose identifier is the
text form of the identifier create returned. -/
theorem claim_C1 (s : Store) (hwf : s.WF) :
    (∀ raw p, validateGuardian raw = .ok p →
      create_guardian (some s) raw =
        (.ok (toString s.nextId), some (insertGuardian s p).2) ∧
      s.nextId ∉ s.natIds ∧
      (list_guardians (some (insertGuardian s p).2)).1 =
        .ok ((insertGuardian s p).2.guardian.map stringifyDoc) ∧
      StrDoc.mk (toString s.nextId) p ∈
        (insertGuardian s p).2.guardian.map stringifyDoc) ∧
    (∀ raw p, validateChild raw = .ok p →
      create_child (some s) raw =
        (.ok (toString s.nextId), some (insertChild s p).2) ∧
      s.nextId ∉ s.natIds ∧
      (list_children (some (insertChild s p).2)).1 =
        .ok ((insertChild s p).2.child.map stringifyDoc) ∧
      StrDoc.mk (toString s.nextId) p ∈
        (insertChild s p).2.child.map stringifyDoc) ∧
    (∀ raw p, validateVaccine raw = .ok p →
      create_vaccine (some s) raw =
        (.ok (toString s.nextId), some (insertVaccine s p).2) ∧
      s.nextId ∉ s.natIds ∧
      (list_vaccines (some (insertVaccine s p).2)).1 =
        .ok ((insertVaccine s p).2.vaccine.map stringifyDoc) ∧
      StrDoc.mk (toString s.nextId) p ∈
        (insertVaccine s p).2.vaccine.map stringifyDoc) ∧
    (∀ raw p, validateImmunization raw = .ok p →
      create_immunization (some s) raw =
        (.ok (toString s.nextId), some (insertImmunization s p).2) ∧
      s.nextId ∉ s.natIds ∧
      (list_immunizations (some (insertImmunization s p).2) none).1 =
        .ok ((insertImmunization s p).2.immunization.map stringifyDoc) ∧
      StrDoc.mk (toString s.nextId) p ∈
        (insertImmunization s p).2.immunization.map stringifyDoc) ∧
    (∀ raw p, validateAppointment raw = .ok p →
      create_appointment (some s) raw =
        (.ok (toString s.nextId), some (insertAppointment s p).2) ∧
      s.nextId ∉ s.natIds ∧
      (list_appointments (some (insertAppointment s p).2) none).1 =
        .ok ((insertAppointment s p).2.appointment.map stringifyDoc) ∧
      StrDoc.mk (toString s.nextId) p ∈
        (insertAppointment s p).2.appointment.map stringifyDoc) := by
  refine ⟨?_, ?_, ?_, ?_, ?_⟩
  · intro raw p hv
    refine ⟨by simp [create_guardian, hv, insertGuardian], Store.nextId_fresh hwf, rfl, ?_⟩
    exact List.mem_map_of_mem stringifyDoc
      (List.mem_append_right s.guardian (List.mem_singleton_self ⟨s.nextId, p⟩))
  · intro raw p hv
    refine ⟨by simp [create_child, hv, insertChild], Store.nextId_fresh hwf, rfl, ?_⟩
    exact List.mem_map_of_mem stringifyDoc
      (List.mem_append_right s.child (List.mem_singleton_self ⟨s.nextId, p⟩))
  · intro raw p hv
    refine ⟨by simp [create_vaccine, hv, insertVaccine], Store.nextId_fresh hwf, rfl, ?_⟩
    exact List.mem_map_of_mem stringifyDoc
      (List.mem_append_right s.vaccine (List.mem_singleton_self ⟨s.nextId, p⟩))
  · intro raw p hv
    refine ⟨by simp [create_immunization, hv, insertImmunization], Store.nextId_fresh hwf, rfl, ?_⟩
    exact List.mem_map_of_mem stringifyDoc
      (List.mem_append_right s.immunization (List.mem_singleton_self ⟨s.nextId, p⟩))
  · intro raw p hv
    refine ⟨by simp [create_appointment, hv, insertAppointment], Store.nextId_fresh hwf, rfl, ?_⟩
    exact List.mem_map_of_mem stringifyDoc
      (List.mem_append_right s.appointment (List.mem_singleton_self ⟨s.nextId, p⟩))

/-- Concrete instance of C1: on the empty store, creating the sample
guardian returns identifier `"0"` and the listed collection contains the
record under that identifier. -/
theorem claim_C1_witness :
    st0.WF ∧
    create_guardian (some st0) rawG0 =
      (.ok "0", some ⟨1, [⟨0, g0⟩], [], [], [], []⟩) ∧
    (0 : Nat) ∉ st0.natIds ∧
    StrDoc.mk "0" g0 ∈
      (Store.mk 1 [⟨0, g0⟩] [] [] [] []).guardian.map stringifyDoc := by
  have h := (claim_C1 st0 (by decide)).1 rawG0 g0 rfl
  exact ⟨by decide, h.1, h.2.1, h.2.2.2⟩

/-- Concrete Immunization record referring to child `"abc"`. -/
def immA : Immunization := ⟨"abc", "v1", 1, ⟨2023, 2, 1⟩, none, none, none, none⟩

/-- Concrete Appointment record referring to child `"abc"`. -/
def appA : Appointment := ⟨"abc", "v1", 1, ⟨2023, 3, 1⟩, none⟩

/-- Concrete store holding one immunization and one appointment. -/
def cstore : Store := ⟨2, [], [], [], [⟨0, immA⟩], [⟨1, appA⟩]⟩

/-- C2 as frozen is false at the filter value `""`: the handler builds
`filter_q` with Python truthiness, so an empty-string `child_id` drops
the filter and the result includes records whose `child_id` differs from
the filter value. -/
theorem claim_C2_counterexample :
    (list_immunizations (some cstore) (some "")).1 = .ok [StrDoc.mk "0" immA] ∧
      immA.child_id ≠ "" :=
  ⟨rfl, by decide⟩

/-- C2 (amended to non-empty filter values): for every store state and
every non-empty `child_id` filter, the filtered immunization and
appointment lists return exactly the stored records whose `child_id`
equals the filter value, and exclude every record with a different
`child_id`. -/
theorem claim_C2 (s : Store) (c : String) (hc : c ≠ "") :
    (list_immunizations (some s) (some c)).1 =
      .ok ((s.immunization.filter (fun d => d.data.child_id == c)).map stringifyDoc) ∧
    (∀ sd, sd ∈ (s.immunization.filter (fun d => d.data.child_id == c)).map stringifyDoc ↔
      ∃ d ∈ s.immunization, stringifyDoc d = sd ∧ d.data.child_id = c) ∧
    (list_appointments (some s) (some c)).1 =
      .ok ((s.appointment.filter (fun d => d.data.child_id == c)).map stringifyDoc) ∧
    (∀ sd, sd ∈ (s.appointment.filter (fun d => d.data.child_id == c)).map stringifyDoc ↔
      ∃ d ∈ s.appointment, stringifyDoc d = sd ∧ d.data.child_id = c) := by
  refine ⟨by simp [list_immunizations, truthyFilter, findImmunizations, hc], ?_,
    by simp [list_appointments, truthyFilter, findAppointments, hc], ?_⟩
  · intro sd
    simp only [List.mem_map, List.mem_filter, beq_iff_eq]
    tauto
  · intro sd
    simp only [List.mem_map, List.mem_filter, beq_iff_eq]
    tauto

/-- Concrete instance of the amended C2: filtering by the non-empty
`child_id` `"abc"` returns exactly the matching immunization. -/
theorem claim_C2_witness :
    ("abc" : String) ≠ "" ∧
    (list_immunizations (some cstore) (some "abc")).1 = .ok [StrDoc.mk "0" immA] := by
  refine ⟨by decide, ?_⟩
  exact (claim_C2 cstore "abc" (by decide)).1

/-- C9: an empty-string `child_id` query parameter is falsy in the
handler's `if child_id` test, so the filter is dropped and the full
collection is returned for both immunizations and appointments. -/
theorem claim_C9 (s : Store) :
    list_immunizations (some s) (some "") = list_immunizations (some s) none ∧
    (list_immunizations (some s) (some "")).1 = .ok (s.immunization.map stringifyDoc) ∧
    list_appointments (some s) (some "") = list_appointments (some s) none ∧
    (list_appointments (some s) (some "")).1 = .ok (s.appointment.map stringifyDoc) :=
  ⟨rfl, rfl, rfl, rfl⟩

/-- A failed Guardian validation surfaces as a field-level error and
leaves the store handle untouched. -/
theorem create_guardian_err {db : Option Store} {raw : RawGuardian} {e : String}
    (h : validateGuardian raw = .error e) :
    create_guardian db raw = (.error (.validation e), db) := by
  simp [create_guardian, h]

/-- A failed Child validation surfaces as a field-level error and leaves
the store handle untouched. -/
theorem create_child_err {db : Option Store} {raw : RawChild} {e : String}
    (h : validateChild raw = .error e) :
    create_child db raw = (.error (.validation e), db) := by
  simp [create_child, h]

/-- A failed Vaccine validation surfaces as a field-level error and
leaves the store handle untouched. -/
theorem create_vaccine_err {db : Option Store} {raw : RawVaccine} {e : String}
    (h : validateVaccine raw = .error e) :
    create_vaccine db raw = (.error (.validation e), db) := by
  simp [create_vaccine, h]

/-- A failed Immunization validation surfaces as a field-level error and
leaves the store handle untouched. -/
theorem create_immunization_err {db : Option Store} {raw : RawImmunization} {e : String}
    (h : validateImmunization raw = .error e) :
    create_immunization db raw = (.error (.validation e), db) := by
  simp [create_immunization, h]

/-- A failed Appointment validation surfaces as a field-level error and
leaves the store handle untouched. -/
theorem create_appointment_err {db : Option Store} {raw : RawAppointment} {e : String}
    (h : validateAppointment raw = .error e) :
    create_appointment db raw = (.error (.validation e), db) := by
  simp [create_appointment, h]

/-- C3: a create payload missing a required field, or carrying
`dose_number` below 1 (Immunization, Appointment), or `doses_required`
below 1 (Vaccine), is rejected with a field-level validation error and
the store handle is returned unchanged — no record is stored. -/
theorem claim_C3 (db : Option Store) :
    (∀ raw : RawGuardian, raw.name = .missing →
      ∃ f, create_guardian db raw = (.error (.validation f), db)) ∧
    (∀ raw : RawChild,
      raw.first_name = .missing ∨ raw.last_name = .missing ∨
        raw.date_of_birth = .missing →
      ∃ f, create_child db raw = (.error (.validation f), db)) ∧
    (∀ raw : RawVaccine, raw.name = .missing →
      ∃ f, create_vaccine db raw = (.error (.validation f), db)) ∧
    (∀ (raw : RawVaccine) (v : Int), raw.doses_required = .given v → v < 1 →
      ∃ f, create_vaccine db raw = (.error (.validation f), db)) ∧
    (∀ raw : RawImmunization,
      raw.child_id = .missing ∨ raw.vaccine_id = .missing ∨
        raw.dose_number = .missing ∨ raw.date_administered = .missing →
      ∃ f, create_immunization db raw = (.error (.validation f), db)) ∧
    (∀ (raw : RawImmunization) (v : Int), raw.dose_number = .given v → v < 1 →
      ∃ f, create_immunization db raw = (.error (.validation f), db)) ∧
    (∀ raw : RawAppointment,
      raw.child_id = .missing ∨ raw.vaccine_id = .missing ∨
        raw.dose_number = .missing ∨ raw.scheduled_date = .missing →
      ∃ f, create_appointment db raw = (.error (.validation f), db)) ∧
    (∀ (raw : RawAppointment) (v : Int), raw.dose_number = .given v → v < 1 →
      ∃ f, create_appointment db raw = (.error (.validation f), db)) := by
  refine ⟨?_, ?_, ?_, ?_, ?_, ?_, ?_, ?_⟩
  · intro raw hm
    cases hval : validateGuardian raw with
    | error e => exact ⟨e, create_guardian_err hval⟩
    | ok p =>
      obtain ⟨h1, -⟩ := validateGuardian_ok hval
      rw [hm] at h1
      simp at h1
  · intro raw hm
    cases hval : validateChild raw with
    | error e => exact ⟨e, create_child_err hval⟩
    | ok p =>
      obtain ⟨h1, h2, -, h3, -⟩ := validateChild_ok hval
      rcases hm with hm | hm | hm
      · rw [hm] at h1; simp at h1
      · rw [hm] at h2; simp at h2
      · rw [hm] at h3; simp at h3
  · intro raw hm
    cases hval : validateVaccine raw with
    | error e => exact ⟨e, create_vaccine_err hval⟩
    | ok p =>
      obtain ⟨h1, -⟩ := validateVaccine_ok hval
      rw [hm] at h1
      simp at h1
  · intro raw v hg hlt
    cases hval : validateVaccine raw with
    | error e => exact ⟨e, create_vaccine_err hval⟩
    | ok p =>
      obtain ⟨-, -, -, hd, -⟩ := validateVaccine_ok hval
      rcases dosesRequiredField_ok hd with ⟨h1, -⟩ | ⟨h1, -⟩ | ⟨w, h1, hw, -⟩ <;>
        rw [hg] at h1
      · simp at h1
      · simp at h1
      · injection h1 with hv
        omega
  · intro raw hm
    cases hval : validateImmunization raw with
    | error e => exact ⟨e, create_immunization_err hval⟩
    | ok p =>
      obtain ⟨h1, h2, h3, h4, -⟩ := validateImmunization_ok hval
      obtain ⟨h3a, -⟩ := reqIntGe1_ok h3
      rcases hm with hm | hm | hm | hm
      · rw [hm] at h1; simp at h1
      · rw [hm] at h2; simp at h2
      · rw [hm] at h3a; simp at h3a
      · rw [hm] at h4; simp at h4
  · intro raw v hg hlt
    cases hval : validateImmunization raw with
    | error e => exact ⟨e, create_immunization_err hval⟩
    | ok p =>
      obtain ⟨-, -, h3, -⟩ := validateImmunization_ok hval
      obtain ⟨h3a, h3b⟩ := reqIntGe1_ok h3
      rw [hg] at h3a
      injection h3a with hv
      omega
  · intro raw hm
    cases hval : validateAppointment raw with
    | error e => exact ⟨e, create_appointment_err hval⟩
    | ok p =>
      obtain ⟨h1, h2, h3, h4, -⟩ := validateAppointment_ok hval
      obtain ⟨h3a, -⟩ := reqIntGe1_ok h3
      rcases hm with hm | hm | hm | hm
      · rw [hm] at h1; simp at h1
      · rw [hm] at h2; simp at h2
      · rw [hm] at h3a; simp at h3a
      · rw [hm] at h4; simp at h4
  · intro raw v hg hlt
    cases hval : validateAppointment raw with
    | error e => exact ⟨e, create_appointment_err hval⟩
    | ok p =>
      obtain ⟨-, -, h3, -⟩ := validateAppointment_ok hval
      obtain ⟨h3a, h3b⟩ := reqIntGe1_ok h3
      rw [hg] at h3a
      injection h3a with hv
      omega

/-- Concrete Guardian payload with the required `name` omitted. -/
def rawGmiss : RawGuardian := ⟨.missing, .missing, .missing, .missing, .missing⟩

/-- Concrete Immunization payload with `dose_number` 0. -/
def rawIzero : RawImmunization :=
  ⟨.given "abc", .given "v1", .given 0, .given ⟨2023, 2, 1⟩, .missing, .missing,
    .missing, .missing⟩

/-- Concrete instances of C3: the guardian payload without `name` and
the immunization payload with `dose_number = 0` are both rejected with a
validation error, leaving the store handle unchanged. -/
theorem claim_C3_witness :
    rawGmiss.name = RawField.missing ∧
    (∃ f, create_guardian (some st0) rawGmiss = (.error (.validation f), some st0)) ∧
    rawIzero.dose_number = RawField.given 0 ∧ (0 : Int) < 1 ∧
    (∃ f, create_immunization (some st0) rawIzero =
      (.error (.validation f), some st0)) := by
  have h := claim_C3 (some st0)
  exact ⟨rfl, h.1 rawGmiss rfl, rfl, by decide,
    h.2.2.2.2.2.1 rawIzero 0 rfl (by decide)⟩

/-- C4: with the store handle unconfigured (`db is None`), every create
whose payload passes validation and every list call fail with the
service-unavailable error of `ensure_db`, and no create call of any
payload produces a store — no record is inserted. -/
theorem claim_C4 :
    (∀ raw p, validateGuardian raw = .ok p →
      create_guardian none raw = (.error .serviceUnavailable, none)) ∧
    (∀ raw p, validateChild raw = .ok p →
      create_child none raw = (.error .serviceUnavailable, none)) ∧
    (∀ raw p, validateVaccine raw = .ok p →
      create_vaccine none raw = (.error .serviceUnavailable, none)) ∧
    (∀ raw p, validateImmunization raw = .ok p →
      create_immunization none raw = (.error .serviceUnavailable, none)) ∧
    (∀ raw p, validateAppointment raw = .ok p →
      create_appointment none raw = (.error .serviceUnavailable, none)) ∧
    list_guardians none = (.error .serviceUnavailable, none) ∧
    list_children none = (.error .serviceUnavailable, none) ∧
    list_vaccines none = (.error .serviceUnavailable, none) ∧
    (∀ cid, list_immunizations none cid = (.error .serviceUnavailable, none)) ∧
    (∀ cid, list_appointments none cid = (.error .serviceUnavailable, none)) ∧
    (∀ raw : RawGuardian, (create_guardian none raw).2 = none) ∧
    (∀ raw : RawChild, (create_child none raw).2 = none) ∧
    (∀ raw : RawVaccine, (create_vaccine none raw).2 = none) ∧
    (∀ raw : RawImmunization, (create_immunization none raw).2 = none) ∧
    (∀ raw : RawAppointment, (create_appointment none raw).2 = none) := by
  refine ⟨?_, ?_, ?_, ?_, ?_, rfl, rfl, rfl, fun _ => rfl, fun _ => rfl,
    ?_, ?_, ?_, ?_, ?_⟩
  · intro raw p hv; simp [create_guardian, hv]
  · intro raw p hv; simp [create_child, hv]
  · intro raw p hv; simp [create_vaccine, hv]
  · intro raw p hv; simp [create_immunization, hv]
  · intro raw p hv; simp [create_appointment, hv]
  · intro raw; cases hval : validateGuardian raw <;> simp [create_guardian, hval]
  · intro raw; cases hval : validateChild raw <;> simp [create_child, hval]
  · intro raw; cases hval : validateVaccine raw <;> simp [create_vaccine, hval]
  · intro raw; cases hval : validateImmunization raw <;>
      simp [create_immunization, hval]
  · intro raw; cases hval : validateAppointment raw <;>
      simp [create_appointment, hval]

/-- Concrete instance of C4: creating the sample guardian with the
store unconfigured fails with the service-unavailable error. -/
theorem claim_C4_witness :
    validateGuardian rawG0 = .ok g0 ∧
    create_guardian none rawG0 = (.error .serviceUnavailable, none) :=
  ⟨rfl, claim_C4.1 rawG0 g0 rfl⟩

/-- Evaluation of `optField` on an omitted key. -/
theorem optField_missing {α : Type} : optField (RawField.missing : RawField α) = none :=
  rfl

/-- C5: a Vaccine payload omitting `doses_required` validates to a
record with `doses_required = 1` and is stored that way; every other
optional field of every entity validates to the explicit absent value
`none` when its key is omitted. -/
theorem claim_C5 :
    (∀ (s : Store) (r : RawVaccine) (p : Vaccine), r.doses_required = .missing →
      validateVaccine r = .ok p →
      p.doses_required = some 1 ∧
      (create_vaccine (some s) r).2 = some (insertVaccine s p).2 ∧
      StrDoc.mk (toString s.nextId) p ∈
        (insertVaccine s p).2.vaccine.map stringifyDoc) ∧
    (∀ (r : RawGuardian) (p : Guardian), validateGuardian r = .ok p →
      (r.phone = .missing → p.phone = none) ∧
      (r.email = .missing → p.email = none) ∧
      (r.relationship = .missing → p.relationship = none) ∧
      (r.address = .missing → p.address = none)) ∧
    (∀ (r : RawChild) (p : Child), validateChild r = .ok p →
      (r.gender = .missing → p.gender = none) ∧
      (r.birth_certificate_number = .missing → p.birth_certificate_number = none) ∧
      (r.national_id = .missing → p.national_id = none) ∧
      (r.guardian_id = .missing → p.guardian_id = none)) ∧
    (∀ (r : RawVaccine) (p : Vaccine), validateVaccine r = .ok p →
      (r.code = .missing → p.code = none) ∧
      (r.manufacturer = .missing → p.manufacturer = none) ∧
      (r.recommended_ages_weeks = .missing → p.recommended_ages_weeks = none)) ∧
    (∀ (r : RawImmunization) (p : Immunization), validateImmunization r = .ok p →
      (r.administered_by = .missing → p.administered_by = none) ∧
      (r.location = .missing → p.location = none) ∧
      (r.lot_number = .missing → p.lot_number = none) ∧
      (r.adverse_events = .missing → p.adverse_events = none)) ∧
    (∀ (r : RawAppointment) (p : Appointment), validateAppointment r = .ok p →
      r.notes = .missing → p.notes = none) := by
  refine ⟨?_, ?_, ?_, ?_, ?_, ?_⟩
  · intro s r p hm hv
    obtain ⟨-, -, -, hd, -⟩ := validateVaccine_ok hv
    rw [hm] at hd
    simp [dosesRequiredField] at hd
    refine ⟨hd.symm, by simp [create_vaccine, hv, insertVaccine], ?_⟩
    exact List.mem_map_of_mem stringifyDoc
      (List.mem_append_right s.vaccine (List.mem_singleton_self ⟨s.nextId, p⟩))
  · intro r p hv
    obtain ⟨-, h1, h2, h3, h4⟩ := validateGuardian_ok hv
    exact ⟨fun hm => by rw [h1, hm, optField_missing],
      fun hm => by rw [h2, hm, optField_missing],
      fun hm => by rw [h3, hm, optField_missing],
      fun hm => by rw [h4, hm, optField_missing]⟩
  · intro r p hv
    obtain ⟨-, -, h1, -, h2, h3, h4⟩ := validateChild_ok hv
    exact ⟨fun hm => by rw [h1, hm, optField_missing],
      fun hm => by rw [h2, hm, optField_missing],
      fun hm => by rw [h3, hm, optField_missing],
      fun hm => by rw [h4, hm, optField_missing]⟩
  · intro r p hv
    obtain ⟨-, h1, h2, -, h3⟩ := validateVaccine_ok hv
    exact ⟨fun hm => by rw [h1, hm, optField_missing],
      fun hm => by rw [h2, hm, optField_missing],
      fun hm => by rw [h3, hm, optField_missing]⟩
  · intro r p hv
    obtain ⟨-, -, -, -, h1, h2, h3, h4⟩ := validateImmunization_ok hv
    exact ⟨fun hm => by rw [h1, hm, optField_missing],
      fun hm => by rw [h2, hm, optField_missing],
      fun hm => by rw [h3, hm, optField_missing],
      fun hm => by rw [h4, hm, optField_missing]⟩
  · intro r p hv
    obtain ⟨-, -, -, -, h1⟩ := validateAppointment_ok hv
    exact fun hm => by rw [h1, hm, optField_missing]

/-- Concrete Vaccine payload with every optional key omitted. -/
def rawV0 : RawVaccine := ⟨.given "BCG", .missing, .missing, .missing, .missing⟩

/-- Validated form of `rawV0`: the omitted `doses_required` became 1. -/
def v0 : Vaccine := ⟨"BCG", none, none, some 1, none⟩

/-- Concrete instance of C5: the vaccine payload omitting
`doses_required` is stored with `doses_required = 1`. -/
theorem claim_C5_witness :
    rawV0.doses_required = RawField.missing ∧ validateVaccine rawV0 = .ok v0 ∧
    v0.doses_required = some 1 ∧
    (create_vaccine (some st0) rawV0).2 =
      some ⟨1, [], [], [⟨0, v0⟩], [], []⟩ := by
  have h := claim_C5.1 st0 rawV0 v0 rfl rfl
  exact ⟨rfl, rfl, h.1, h.2.1⟩

/-- C10: an explicit `null` for `doses_required` is accepted by
validation — the `ge=1` bound constrains only integer values — and the
record is stored with `doses_required` absent, bypassing the default 1. -/
theorem claim_C10 :
    (∀ (r : RawVaccine) (p : Vaccine), r.doses_required = .null →
      validateVaccine r = .ok p → p.doses_required = none) ∧
    (∀ n : String,
      validateVaccine ⟨.given n, .missing, .missing, .null, .missing⟩ =
        .ok ⟨n, none, none, none, none⟩) := by
  constructor
  · intro r p hn hv
    obtain ⟨-, -, -, hd, -⟩ := validateVaccine_ok hv
    rw [hn] at hd
    simp [dosesRequiredField] at hd
    exact hd.symm
  · intro n
    rfl

/-- Concrete Vaccine payload with `doses_required` explicitly `null`. -/
def rawVnull : RawVaccine := ⟨.given "BCG", .missing, .missing, .null, .missing⟩

/-- Validated form of `rawVnull`: `doses_required` is absent. -/
def vnull : Vaccine := ⟨"BCG", none, none, none, none⟩

/-- Concrete instance of C10: the explicit `null` payload is accepted
and its stored `doses_required` is absent. -/
theorem claim_C10_witness :
    rawVnull.doses_required = RawField.null ∧ validateVaccine rawVnull = .ok vnull ∧
    vnull.doses_required = none :=
  ⟨rfl, rfl, claim_C10.1 rawVnull vnull rfl rfl⟩

/-- C6: every list endpoint is read-only and idempotent — running it a
second time on the handle returned by the first run yields the identical
response and the identical handle. -/
theorem claim_C6 (db : Option Store) :
    list_guardians (list_guardians db).2 = list_guardians db ∧
    list_children (list_children db).2 = list_children db ∧
    list_vaccines (list_vaccines db).2 = list_vaccines db ∧
    (∀ cid, list_immunizations (list_immunizations db cid).2 cid =
      list_immunizations db cid) ∧
    (∀ cid, list_appointments (list_appointments db cid).2 cid =
      list_appointments db cid) := by
  cases db with
  | none => exact ⟨rfl, rfl, rfl, fun _ => rfl, fun _ => rfl⟩
  | some s => exact ⟨rfl, rfl, rfl, fun _ => rfl, fun _ => rfl⟩

/-- C7: a calendar date supplied as `date_of_birth`, `date_administered`
or `scheduled_date` in a create payload is returned unchanged by the
subsequent list — the stored record carries the same calendar date. -/
theorem claim_C7 (s : Store) :
    (∀ (raw : RawChild) (p : Child) (d : CalDate), raw.date_of_birth = .given d →
      validateChild raw = .ok p →
      p.date_of_birth = d ∧
      (create_child (some s) raw).2 = some (insertChild s p).2 ∧
      (list_children (some (insertChild s p).2)).1 =
        .ok ((insertChild s p).2.child.map stringifyDoc) ∧
      StrDoc.mk (toString s.nextId) p ∈
        (insertChild s p).2.child.map stringifyDoc) ∧
    (∀ (raw : RawImmunization) (p : Immunization) (d : CalDate),
      raw.date_administered = .given d → validateImmunization raw = .ok p →
      p.date_administered = d ∧
      (create_immunization (some s) raw).2 = some (insertImmunization s p).2 ∧
      (list_immunizations (some (insertImmunization s p).2) none).1 =
        .ok ((insertImmunization s p).2.immunization.map stringifyDoc) ∧
      StrDoc.mk (toString s.nextId) p ∈
        (insertImmunization s p).2.immunization.map stringifyDoc) ∧
    (∀ (raw : RawAppointment) (p : Appointment) (d : CalDate),
      raw.scheduled_date = .given d → validateAppointment raw = .ok p →
      p.scheduled_date = d ∧
      (create_appointment (some s) raw).2 = some (insertAppointment s p).2 ∧
      (list_appointments (some (insertAppointment s p).2) none).1 =
        .ok ((insertAppointment s p).2.appointment.map stringifyDoc) ∧
      StrDoc.mk (toString s.nextId) p ∈
        (insertAppointment s p).2.appointment.map stringifyDoc) := by
  refine ⟨?_, ?_, ?_⟩
  · intro raw p d hg hv
    obtain ⟨-, -, -, hdob, -⟩ := validateChild_ok hv
    rw [hg] at hdob
    injection hdob with hd
    refine ⟨hd.symm, by simp [create_child, hv, insertChild], rfl, ?_⟩
    exact List.mem_map_of_mem stringifyDoc
      (List.mem_append_right s.child (List.mem_singleton_self ⟨s.nextId, p⟩))
  · intro raw p d hg hv
    obtain ⟨-, -, -, hda, -⟩ := validateImmunization_ok hv
    rw [hg] at hda
    injection hda with hd
    refine ⟨hd.symm, by simp [create_immunization, hv, insertImmunization], rfl, ?_⟩
    exact List.mem_map_of_mem stringifyDoc
      (List.mem_append_right s.immunization (List.mem_singleton_self ⟨s.nextId, p⟩))
  · intro raw p d hg hv
    obtain ⟨-, -, -, hsd, -⟩ := validateAppointment_ok hv
    rw [hg] at hsd
    injection hsd with hd
    refine ⟨hd.symm, by simp [create_appointment, hv, insertAppointment], rfl, ?_⟩
    exact List.mem_map_of_mem stringifyDoc
      (List.mem_append_right s.appointment (List.mem_singleton_self ⟨s.nextId, p⟩))

/-- Concrete Child create payload with date of birth 2023-01-01. -/
def rawC0 : RawChild :=
  ⟨.given "Amy", .given "Doe", .missing, .given ⟨2023, 1, 1⟩, .missing, .missing,
    .missing⟩

/-- Validated form of `rawC0`. -/
def c0 : Child := ⟨"Amy", "Doe", none, ⟨2023, 1, 1⟩, none, none, none⟩

/-- Concrete instance of C7: the child's date of birth round-trips
through create and list unchanged. -/
theorem claim_C7_witness :
    rawC0.date_of_birth = RawField.given ⟨2023, 1, 1⟩ ∧
    validateChild rawC0 = .ok c0 ∧ c0.date_of_birth = ⟨2023, 1, 1⟩ ∧
    StrDoc.mk "0" c0 ∈ (insertChild st0 c0).2.child.map stringifyDoc := by
  have h := (claim_C7 st0).1 rawC0 c0 ⟨2023, 1, 1⟩ rfl rfl
  exact ⟨rfl, rfl, h.1, h.2.2.2⟩

/-- C8: each create mutates only its own collection — the other four
collections of the resulting store are exactly those of the input store
— and the list endpoints return the store handle unchanged, so insert
is the only mutating operation. -/
theorem claim_C8 (s : Store) :
    (∀ raw : RawGuardian, ∃ n g, (create_guardian (some s) raw).2 =
      some ⟨n, g, s.child, s.vaccine, s.immunization, s.appointment⟩) ∧
    (∀ raw : RawChild, ∃ n c, (create_child (some s) raw).2 =
      some ⟨n, s.guardian, c, s.vaccine, s.immunization, s.appointment⟩) ∧
    (∀ raw : RawVaccine, ∃ n v, (create_vaccine (some s) raw).2 =
      some ⟨n, s.guardian, s.child, v, s.immunization, s.appointment⟩) ∧
    (∀ raw : RawImmunization, ∃ n i, (create_immunization (some s) raw).2 =
      some ⟨n, s.guardian, s.child, s.vaccine, i, s.appointment⟩) ∧
    (∀ raw : RawAppointment, ∃ n a, (create_appointment (some s) raw).2 =
      some ⟨n, s.guardian, s.child, s.vaccine, s.immunization, a⟩) ∧
    (list_guardians (some s)).2 = some s ∧
    (list_children (some s)).2 = some s ∧
    (list_vaccines (some s)).2 = some s ∧
    (∀ cid, (list_immunizations (some s) cid).2 = some s) ∧
    (∀ cid, (list_appointments (some s) cid).2 = some s) := by
  refine ⟨?_, ?_, ?_, ?_, ?_, rfl, rfl, rfl, fun _ => rfl, fun _ => rfl⟩
  · intro raw
    cases hval : validateGuardian raw with
    | error e => exact ⟨s.nextId, s.guardian, by simp [create_guardian, hval]⟩
    | ok p =>
      exact ⟨s.nextId + 1, s.guardian ++ [⟨s.nextId, p⟩],
        by simp [create_guardian, hval, insertGuardian]⟩
  · intro raw
    cases hval : validateChild raw with
    | error e => exact ⟨s.nextId, s.child, by simp [create_child, hval]⟩
    | ok p =>
      exact ⟨s.nextId + 1, s.child ++ [⟨s.nextId, p⟩],
        by simp [create_child, hval, insertChild]⟩
  · intro raw
    cases hval : validateVaccine raw with
    | error e => exact ⟨s.nextId, s.vaccine, by simp [create_vaccine, hval]⟩
    | ok p =>
      exact ⟨s.nextId + 1, s.vaccine ++ [⟨s.nextId, p⟩],
        by simp [create_vaccine, hval, insertVaccine]⟩
  · intro raw
    cases hval : validateImmunization raw with
    | error e => exact ⟨s.nextId, s.immunization, by simp [create_immunization, hval]⟩
    | ok p =>
      exact ⟨s.nextId + 1, s.immunization ++ [⟨s.nextId, p⟩],
        by simp [create_immunization, hval, insertImmunization]⟩
  · intro raw
    cases hval : validateAppointment raw with
    | error e => exact ⟨s.nextId, s.appointment, by simp [create_appointment, hval]⟩
    | ok p =>
      exact ⟨s.nextId + 1, s.appointment ++ [⟨s.nextId, p⟩],
        by simp [create_appointment, hval, insertAppointment]⟩
